import Mathlib

/-!
Verification development for the `downloaders` package (anki21-download-audio).

The file gives a shallow embedding of `src/downloaders/downloader.py`:
the module-level helper `uniqify_list`, the `AudioDownloader` class with its
operations `download_files`, `maybe_get_icon`, `get_favicon`,
`get_data_from_url` and `get_file_name`, and the parts of the Python standard
library the class calls into (`urllib.parse.urlsplit`, `urljoin`, `quote`).

Network and GUI effects are made explicit: an `Env` value supplies the
behaviour of `urllib.request.urlopen`, of the BeautifulSoup icon-link lookup
and of the Qt image functions, and every operation returns the list of
network requests it issued together with its outcome, so that claims about
caching ("performs no network request") and error propagation are statable.
Machine strings are Lean `String`s; raw response bodies are `List UInt8`.
-/

/-! ### Byte-level helpers (UTF-8, percent-encoding)

`urllib.parse.quote` percent-encodes the UTF-8 bytes of its input that are
not unreserved (letters, digits, `_.-~`) and not in the default safe set
(`/`).  We model UTF-8 encoding explicitly so that everything reduces in the
kernel. -/

/-- The raw octets of a response body or file, as Python `bytes`. -/
abbrev ByteData := List UInt8

/-- UTF-8 encoding of one code point, as the RFC 3629 byte sequences. -/
def utf8Bytes (c : Char) : List UInt8 :=
  let n := c.toNat
  if n < 0x80 then
    [UInt8.ofNat n]
  else if n < 0x800 then
    [UInt8.ofNat (0xC0 ||| (n >>> 6)), UInt8.ofNat (0x80 ||| (n &&& 0x3F))]
  else if n < 0x10000 then
    [UInt8.ofNat (0xE0 ||| (n >>> 12)), UInt8.ofNat (0x80 ||| ((n >>> 6) &&& 0x3F)),
      UInt8.ofNat (0x80 ||| (n &&& 0x3F))]
  else
    [UInt8.ofNat (0xF0 ||| (n >>> 18)), UInt8.ofNat (0x80 ||| ((n >>> 12) &&& 0x3F)),
      UInt8.ofNat (0x80 ||| ((n >>> 6) &&& 0x3F)), UInt8.ofNat (0x80 ||| (n &&& 0x3F))]

/-- Upper-case hexadecimal digit, as `urllib.parse.quote` emits them. -/
def hexDigit (n : Nat) : Char :=
  if n < 10 then Char.ofNat (48 + n) else Char.ofNat (55 + n)

/-- A byte `urllib.parse.quote` leaves as-is with the default `safe` string:
the always-safe bytes (ASCII letters, digits, `_`, `.`, `-`, `~`) and the
default safe character `/`. -/
def quoteSafeByte (n : Nat) : Bool :=
  (65 ≤ n && n ≤ 90) || (97 ≤ n && n ≤ 122) || (48 ≤ n && n ≤ 57) ||
    n == 95 || n == 46 || n == 45 || n == 126 || n == 47

/-- Percent-encoding of one byte: the byte itself when safe, `%XX` otherwise. -/
def quoteByte (b : UInt8) : List Char :=
  let n := b.toNat
  if quoteSafeByte n then [Char.ofNat n]
  else ['%', hexDigit (n / 16), hexDigit (n % 16)]

/-- Embeds `urllib.parse.quote(s)` (default `safe = "/"`): percent-encode every
UTF-8 byte of `s` outside the safe set. -/
def quote (s : String) : String :=
  String.mk ((s.toList.flatMap utf8Bytes).flatMap quoteByte)

/-! ### `urllib.parse`: urlsplit, urlunsplit, urljoin

Ported from CPython `Lib/urllib/parse.py` (the RFC 3986 resolution used by
Python 3).  The rarely used params component (`;` in the last path segment)
is not split off, which only matters for URLs containing `;`. -/

/-- A character allowed inside a URL scheme (`scheme_chars` of CPython). -/
def isSchemeChar (c : Char) : Bool :=
  c.isAlpha || c.isDigit || c == '+' || c == '-' || c == '.'

/-- Split a character list at the first occurrence of `sep`; `none` when `sep`
does not occur.  Mirrors Python `str.split(sep, 1)` and `str.find`. -/
def splitOnceChar (sep : Char) : List Char → Option (List Char × List Char)
  | [] => none
  | c :: cs =>
    if c = sep then some ([], cs)
    else
      match splitOnceChar sep cs with
      | none => none
      | some (a, b) => some (c :: a, b)

/-- The result of `urllib.parse.urlsplit`: scheme, network location, path,
query and fragment. -/
structure SplitResult where
  scheme : String
  netloc : String
  path : String
  query : String
  fragment : String
deriving Repr, DecidableEq

/-- Embeds `urllib.parse.urlsplit(url)` (default scheme, fragments allowed):
peel a valid scheme before the first `:`, a netloc after `//` up to `/?#`,
the fragment after the first `#`, the query after the first `?`. -/
def urlsplit (url : String) : SplitResult :=
  let cs := url.toList
  let p1 :=
    match splitOnceChar ':' cs with
    | some (pre, post) =>
      if !pre.isEmpty && pre.all isSchemeChar then (pre.map Char.toLower, post)
      else (([] : List Char), cs)
    | none => (([] : List Char), cs)
  let scheme := p1.1
  let rest1 := p1.2
  let p2 :=
    match rest1 with
    | '/' :: '/' :: r =>
      let s := r.span (fun c => !(c == '/' || c == '?' || c == '#'))
      (s.1, s.2)
    | _ => (([] : List Char), rest1)
  let netloc := p2.1
  let rest2 := p2.2
  let p3 :=
    match splitOnceChar '#' rest2 with
    | some (a, b) => (a, b)
    | none => (rest2, ([] : List Char))
  let rest3 := p3.1
  let fragment := p3.2
  let p4 :=
    match splitOnceChar '?' rest3 with
    | some (a, b) => (a, b)
    | none => (rest3, ([] : List Char))
  ⟨String.mk scheme, String.mk netloc, String.mk p4.1, String.mk p4.2,
    String.mk fragment⟩

/-- Python `s.startswith(pre)`, via structural list recursion so that it
reduces in the kernel. -/
def strStartsWith (s pre : String) : Bool :=
  pre.toList.isPrefixOf s.toList

/-- Embeds `urllib.parse.urlunsplit`: reassemble the five components. -/
def urlunsplit (r : SplitResult) : String :=
  let url := r.path
  let url :=
    if r.netloc ≠ "" ∨ strStartsWith url "//" then
      "//" ++ r.netloc ++ (if url ≠ "" ∧ ¬strStartsWith url "/" then "/" ++ url else url)
    else url
  let url := if r.scheme ≠ "" then r.scheme ++ ":" ++ url else url
  let url := if r.query ≠ "" then url ++ "?" ++ r.query else url
  if r.fragment ≠ "" then url ++ "#" ++ r.fragment else url

/-- CPython `urllib.parse.uses_relative`. -/
def uses_relative : List String :=
  ["", "ftp", "http", "gopher", "nntp", "imap", "wais", "file", "https",
    "shttp", "mms", "prospero", "rtsp", "rtspu", "sftp", "svn", "svn+ssh",
    "ws", "wss"]

/-- CPython `urllib.parse.uses_netloc`. -/
def uses_netloc : List String :=
  ["", "ftp", "http", "gopher", "nntp", "telnet", "imap", "wais", "file",
    "mms", "https", "shttp", "snews", "prospero", "rtsp", "rtspu", "rsync",
    "svn", "svn+ssh", "sftp", "nfs", "git", "git+ssh", "ws", "wss"]

/-- Python `str.split(sep)` on a character list: the groups between
occurrences of `sep`, empty groups kept (`"".split(sep)` is `[""]`). -/
def splitChars (sep : Char) : List Char → List (List Char)
  | [] => [[]]
  | c :: cs =>
    if c = sep then [] :: splitChars sep cs
    else
      match splitChars sep cs with
      | [] => [[c]]
      | g :: gs => (c :: g) :: gs

/-- Python `bpath.split(sep)` for one-character separators. -/
def splitOnChar (sep : Char) (s : String) : List String :=
  (splitChars sep s.toList).map String.mk

/-- Python `sep.join(parts)`, via structural recursion. -/
def joinWith (sep : String) : List String → String
  | [] => ""
  | [a] => a
  | a :: rest => a ++ sep ++ joinWith sep rest

/-- CPython urljoin keeps the first and last segment of the merged list and
drops empty strings in between (`segments[1:-1] = filter(None, ...)`). -/
def filterMiddle : List String → List String
  | [] => []
  | [a] => [a]
  | a :: rest =>
    match rest.getLast? with
    | none => [a]
    | some last => a :: (rest.dropLast.filter (fun s => s != "")) ++ [last]

/-- One step of CPython urljoin segment resolution: `..` pops (ignoring
underflow), `.` is skipped, other segments are appended. -/
def resolveSegments (segments : List String) : List String :=
  segments.foldl
    (fun acc seg =>
      if seg = ".." then acc.dropLast
      else if seg = "." then acc
      else acc ++ [seg]) []

/-- Embeds `urllib.parse.urljoin(base, url)`: the RFC 3986 reference
resolution as CPython implements it. -/
def urljoin (base url : String) : String :=
  if base = "" then url
  else if url = "" then base
  else
    let b := urlsplit base
    let u := urlsplit url
    let scheme := if u.scheme = "" then b.scheme else u.scheme
    if scheme ≠ b.scheme ∨ ¬scheme ∈ uses_relative then url
    else if scheme ∈ uses_netloc ∧ u.netloc ≠ "" then
      urlunsplit ⟨scheme, u.netloc, u.path, u.query, u.fragment⟩
    else
      let netloc := if scheme ∈ uses_netloc then b.netloc else u.netloc
      if u.path = "" then
        let query := if u.query = "" then b.query else u.query
        urlunsplit ⟨scheme, netloc, b.path, query, u.fragment⟩
      else
        let baseParts0 := splitOnChar '/' b.path
        let baseParts :=
          if baseParts0.getLast? ≠ some "" then baseParts0.dropLast else baseParts0
        let segments :=
          if strStartsWith u.path "/" then splitOnChar '/' u.path
          else filterMiddle (baseParts ++ splitOnChar '/' u.path)
        let resolved := resolveSegments segments
        let resolved :=
          if segments.getLast? = some ".." || segments.getLast? = some "." then
            resolved ++ [""]
          else resolved
        let path := joinWith "/" resolved
        let path := if path = "" then "/" else path
        urlunsplit ⟨scheme, netloc, path, u.query, u.fragment⟩

/-! ### `uniqify_list` -/

/-- The loop of `uniqify_list`: `no_dupes` is the accumulator the Python list
comprehension appends to; an element is appended exactly when
`no_dupes.count(i)` is zero. -/
def uniqifyAux [DecidableEq α] : List α → List α → List α
  | [], no_dupes => no_dupes
  | i :: rest, no_dupes =>
    if no_dupes.count i = 0 then uniqifyAux rest (no_dupes ++ [i])
    else uniqifyAux rest no_dupes

/-- Embeds the module-level helper `uniqify_list(seq)`: a copy of the list
with every element appearing only once. -/
def uniqify_list [DecidableEq α] (seq : List α) : List α :=
  uniqifyAux seq []

/-- Written from the specification words, for comparison with `uniqify_list`:
the subsequence of first occurrences keeps the head and recursively drops
later copies of it. -/
def firstOccurrences [DecidableEq α] : List α → List α
  | [] => []
  | a :: l => a :: (firstOccurrences l).filter (fun x => x != a)

/-! ### The data model of `AudioDownloader` and its effect environment -/

/-- A `urllib.request.Request`: the URL and the added headers. -/
structure Request where
  url : String
  headers : List (String × String)
deriving Repr, DecidableEq

/-- What `urllib.request.urlopen` yields on success: the HTTP status
(`response.code`), the reason phrase (`response.msg`) and the raw body
(`response.read()`). -/
structure Response where
  code : Nat
  msg : String
  body : ByteData
deriving Repr, DecidableEq

/-- `urllib.error.URLError`, the exception class `maybe_get_icon` catches. -/
structure URLError where
  reason : String
deriving Repr, DecidableEq

/-- A Qt `QImage` as far as the code inspects it: its dimensions
(`size().width()`, `size().height()`) and the underlying data. -/
structure QImage where
  width : Nat
  height : Nat
  raw : ByteData
deriving Repr, DecidableEq

/-- Outcome of `page_soup.find(name='link', attrs={'rel': 'icon'})['href']`:
no matching tag (subscripting `None` raises `TypeError`), a tag without the
attribute (`KeyError`), or the `href` string. -/
inductive FindIcon where
  | noTag
  | tagWithoutHref
  | href (s : String)
deriving Repr, DecidableEq

/-- The effect environment: presence of PyQt, the behaviour of
`urllib.request.urlopen` on each request, the BeautifulSoup icon-link lookup
on a page body, the Qt image decode `QImage.fromData`, the Qt
`scaled(QSize(m, m), KeepAspectRatio, SmoothTransformation)` call, and the
host facility `free_media_name` imported from `..exists`. -/
structure Env where
  with_pyqt : Bool
  urlopen : Request → Except URLError Response
  findIconHref : ByteData → FindIcon
  fromData : ByteData → QImage
  scaled : QImage → Nat → QImage
  free_media_name : String → String → String × String

/-- The mutable fields `AudioDownloader.__init__` sets. -/
structure AudioDownloader where
  language : String
  downloads_list : List (String × String × List (String × String))
  display_text : String
  base_name : String
  file_extension : String
  url : String
  icon_url : String
  max_icon_size : Nat
  user_agent : String
  use_temp_files : Bool
  download_directory : Option String
  show_skull_and_bones : Bool
  site_icon : Option QImage
deriving Repr, DecidableEq

/-- The field values `AudioDownloader.__init__` assigns. -/
def AudioDownloader.init : AudioDownloader where
  language := ""
  downloads_list := []
  display_text := ""
  base_name := ""
  file_extension := ".wav"
  url := ""
  icon_url := ""
  max_icon_size := 20
  user_agent := "Mozilla/5.0"
  use_temp_files := false
  download_directory := none
  show_skull_and_bones := false
  site_icon := none

/-- Build a request and add the user-agent header only when the agent string
is non-empty, as `if self.user_agent: ...add_header(...)` does. -/
def mkRequest (url ua : String) : Request :=
  if ua = "" then { url := url, headers := [] }
  else { url := url, headers := [("User-agent", ua)] }

/-- `request = urllib.request.Request(url_in)` followed by the unconditional
`request.add_header('User-agent', self.user_agent)` of `get_data_from_url`. -/
def uaRequest (d : AudioDownloader) (url_in : String) : Request :=
  { url := url_in, headers := [("User-agent", d.user_agent)] }

/-- Outcome of an icon operation: the downloader state at return or at the
point an exception escaped, plus the network requests issued on the way. -/
inductive MResult where
  | ok (st : AudioDownloader) (reqs : List Request)
  | raised (e : URLError) (st : AudioDownloader) (reqs : List Request)
deriving Repr, DecidableEq

/-- The requests an icon operation issued. -/
def MResult.reqs : MResult → List Request
  | .ok _ rs => rs
  | .raised _ _ rs => rs

/-- The downloader state an icon operation left behind. -/
def MResult.st : MResult → AudioDownloader
  | .ok d _ => d
  | .raised _ d _ => d

/-- Whether the operation let an exception escape to the caller. -/
def MResult.isRaised : MResult → Bool
  | .ok _ _ => false
  | .raised _ _ _ => true

/-- Record one more (earlier) request in an outcome. -/
def MResult.prepend (r : Request) : MResult → MResult
  | .ok d rs => .ok d (r :: rs)
  | .raised e d rs => .raised e d (r :: rs)

/-- The shared tail of `maybe_get_icon` and `get_favicon`: decode the fetched
bytes with `QImage.fromData`, store the image, and scale it down when either
dimension exceeds `max_icon_size` (`QSize(self.max_icon_size,
self.max_icon_size)` with `Qt.KeepAspectRatio, Qt.SmoothTransformation`). -/
def storeIcon (env : Env) (d : AudioDownloader) (bytes : ByteData) : AudioDownloader :=
  let img := env.fromData bytes
  if img.width > d.max_icon_size ∨ img.height > d.max_icon_size then
    { d with site_icon := some (env.scaled img d.max_icon_size) }
  else
    { d with site_icon := some img }

/-- The icon URL actually fetched: `self.url`-relative resolution (with
`urllib.parse.quote`) when the parsed link has no network location. -/
def resolveIconUrl (d : AudioDownloader) (icon_url : String) : String :=
  if (urlsplit icon_url).netloc = "" then urljoin d.url (quote icon_url)
  else icon_url

/-- Embeds `AudioDownloader.get_favicon`: skip when an icon is already stored
or PyQt is missing, otherwise fetch `/favicon.ico` joined against
`self.icon_url` and store the image on a 200 response. -/
def get_favicon (env : Env) (d : AudioDownloader) : MResult :=
  if d.site_icon.isSome then .ok d []
  else if env.with_pyqt = false then .ok { d with site_icon := none } []
  else
    match env.urlopen (mkRequest (urljoin d.icon_url "/favicon.ico") d.user_agent) with
    | .error e => .raised e d [mkRequest (urljoin d.icon_url "/favicon.ico") d.user_agent]
    | .ok resp =>
      if resp.code ≠ 200 then
        .ok { d with site_icon := none }
          [mkRequest (urljoin d.icon_url "/favicon.ico") d.user_agent]
      else
        .ok (storeIcon env d resp.body)
          [mkRequest (urljoin d.icon_url "/favicon.ico") d.user_agent]

/-- Embeds `AudioDownloader.maybe_get_icon`: skip when an icon is already
stored (`if self.site_icon: return`) or PyQt is missing; load the page at
`self.icon_url`; on a non-200 page or a missing icon link fall back to
`get_favicon`; resolve a relative link against `self.url`; fetch the icon,
swallowing `urllib.error.URLError` (the debug flag is `None`, so `showInfo`
is not called); store `None` on a non-200 icon response, otherwise decode and
downscale. -/
def maybe_get_icon (env : Env) (d : AudioDownloader) : MResult :=
  if d.site_icon.isSome then .ok d []
  else if env.with_pyqt = false then .ok { d with site_icon := none } []
  else
    match env.urlopen (mkRequest d.icon_url d.user_agent) with
    | .error e => .raised e d [mkRequest d.icon_url d.user_agent]
    | .ok presp =>
      if presp.code ≠ 200 then
        (get_favicon env d).prepend (mkRequest d.icon_url d.user_agent)
      else
        match env.findIconHref presp.body with
        | .noTag => (get_favicon env d).prepend (mkRequest d.icon_url d.user_agent)
        | .tagWithoutHref => (get_favicon env d).prepend (mkRequest d.icon_url d.user_agent)
        | .href h =>
          match env.urlopen (mkRequest (resolveIconUrl d h) d.user_agent) with
          | .error _ =>
            .ok d [mkRequest d.icon_url d.user_agent,
              mkRequest (resolveIconUrl d h) d.user_agent]
          | .ok iresp =>
            if iresp.code ≠ 200 then
              .ok { d with site_icon := none }
                [mkRequest d.icon_url d.user_agent,
                  mkRequest (resolveIconUrl d h) d.user_agent]
            else
              .ok (storeIcon env d iresp.body)
                [mkRequest d.icon_url d.user_agent,
                  mkRequest (resolveIconUrl d h) d.user_agent]

/-- The exception `download_files` raises. -/
inductive PyError where
  | notImplementedError (message : String)
deriving Repr, DecidableEq

/-- Embeds `AudioDownloader.download_files`, which unconditionally raises
`NotImplementedError("Use a class derived from this.")`; the state at the
raise is the untouched receiver. -/
def download_files (d : AudioDownloader) (_word _base _ruby : String)
    (_split : Bool) : PyError × AudioDownloader :=
  (.notImplementedError "Use a class derived from this.", d)

/-- The possible outcomes of `get_data_from_url`: the swallowed-nothing
variant — a `URLError` escaping `urlopen` — or the `ValueError` raised on a
non-200 status. -/
inductive FetchError where
  | urlError (e : URLError)
  | valueError (message : String)
deriving Repr, DecidableEq

/-- Embeds `AudioDownloader.get_data_from_url`: build the request, add the
user-agent header, perform the request, raise
`ValueError(str(response.code) + ': ' + response.msg)` unless the status is
200, otherwise return the raw body. -/
def get_data_from_url (env : Env) (d : AudioDownloader) (url_in : String) :
    List Request × Except FetchError ByteData :=
  match env.urlopen (uaRequest d url_in) with
  | .error e => ([uaRequest d url_in], .error (.urlError e))
  | .ok response =>
    if response.code ≠ 200 then
      ([uaRequest d url_in],
        .error (.valueError (toString response.code ++ ": " ++ response.msg)))
    else
      ([uaRequest d url_in], .ok response.body)

/-! ### Temporary files

`get_file_name` calls `tempfile.NamedTemporaryFile(delete=False,
suffix=self.file_extension)`.  Modelled from the spec and the library
contract of `tempfile`, which is not part of this repository: each call
returns a path in the temp directory, carrying the requested suffix and
distinct from every path a previous call returned (the files persist, so a
name is never reused).  The allocator state counts prior allocations and the
fresh stem grows with it, which keeps the returned paths pairwise distinct. -/

/-- State of the temp-file allocator: how many names were handed out. -/
structure TempState where
  counter : Nat
deriving Repr, DecidableEq

/-- Modelled from the spec: `tempfile.NamedTemporaryFile(delete=False,
suffix=...)` allocates a uniquely-named file in the temp directory whose name
ends in `suffix`, and returns its path; the file is kept, so later calls
return different paths. -/
def namedTemporaryFile (ts : TempState) (suffix : String) : String × TempState :=
  ("/tmp/tmp" ++ String.mk (List.replicate ts.counter 'q') ++ suffix,
    { counter := ts.counter + 1 })

/-- Embeds `AudioDownloader.get_file_name`: with `use_temp_files`, allocate a
closed named temp file with the audio extension and return its path twice;
otherwise delegate to the host facility `free_media_name`. -/
def get_file_name (env : Env) (ts : TempState) (d : AudioDownloader) :
    (String × String) × TempState :=
  if d.use_temp_files then
    let r := namedTemporaryFile ts d.file_extension
    ((r.1, r.1), r.2)
  else
    (env.free_media_name d.base_name d.file_extension, ts)

/-! ### Theory of `uniqify_list` -/

theorem firstOccurrences_filter [DecidableEq α] (p : α → Bool) (l : List α) :
    (firstOccurrences l).filter p = firstOccurrences (l.filter p) := by
  induction l with
  | nil => rfl
  | cons a l ih =>
    by_cases hpa : p a = true
    · simp only [firstOccurrences, List.filter_cons, hpa, if_pos]
      simp only [firstOccurrences, List.filter_filter]
      rw [show (fun x => p x && (x != a)) = (fun x => (x != a) && p x) from
        funext fun x => Bool.and_comm _ _]
      rw [← List.filter_filter, ih]
    · have hpa' : p a = false := by simpa using hpa
      simp only [firstOccurrences, List.filter_cons, hpa', if_neg, Bool.false_eq_true,
        not_false_iff, List.filter_filter]
      rw [show (fun x => p x && (x != a)) = p from funext fun x => by
        by_cases hx : x = a
        · subst hx; simp [hpa']
        · simp [hx]]
      exact ih

theorem mem_firstOccurrences [DecidableEq α] {x : α} {l : List α} :
    x ∈ firstOccurrences l ↔ x ∈ l := by
  induction l with
  | nil => simp [firstOccurrences]
  | cons a l ih =>
    by_cases hx : x = a
    · subst hx; simp [firstOccurrences]
    · simp [firstOccurrences, List.mem_filter, hx, ih]

theorem firstOccurrences_nodup [DecidableEq α] (l : List α) :
    (firstOccurrences l).Nodup := by
  induction l with
  | nil => exact List.nodup_nil
  | cons a l ih =>
    refine List.Nodup.cons ?_ (ih.filter _)
    intro hmem
    have := (List.mem_filter.mp hmem).2
    simp at this

theorem firstOccurrences_sublist [DecidableEq α] (l : List α) :
    List.Sublist (firstOccurrences l) l := by
  induction l with
  | nil => exact List.Sublist.refl _
  | cons a l ih =>
    exact List.Sublist.cons₂ a (List.Sublist.trans (List.filter_sublist _) ih)

theorem firstOccurrences_eq_self [DecidableEq α] {l : List α} (h : l.Nodup) :
    firstOccurrences l = l := by
  induction l with
  | nil => rfl
  | cons a l ih =>
    have ha : a ∉ l := (List.nodup_cons.mp h).1
    have hl : l.Nodup := (List.nodup_cons.mp h).2
    simp only [firstOccurrences, ih hl]
    congr 1
    refine List.filter_eq_self.mpr fun x hx => ?_
    have : x ≠ a := fun he => ha (he ▸ hx)
    simpa using this

theorem uniqifyAux_eq [DecidableEq α] (l acc : List α) :
    uniqifyAux l acc = acc ++ firstOccurrences (l.filter (fun x => decide (x ∉ acc))) := by
  induction l generalizing acc with
  | nil => simp [uniqifyAux, firstOccurrences]
  | cons i rest ih =>
    simp only [uniqifyAux]
    by_cases h : acc.count i = 0
    · have hni : i ∉ acc := List.count_eq_zero.mp h
      rw [if_pos h, ih, List.filter_cons, if_pos (by simpa using hni)]
      simp only [firstOccurrences]
      rw [firstOccurrences_filter]
      have hset : (rest.filter (fun x => decide (x ∉ acc))).filter (fun x => x != i) =
          rest.filter (fun x => decide (x ∉ acc ++ [i])) := by
        rw [List.filter_filter]
        refine List.filter_congr fun x _ => ?_
        by_cases hx : x = i
        · subst hx; simp
        · simp [hx]
      rw [hset]
      simp [List.append_assoc]
    · have hmem : i ∈ acc := by
        by_contra hn
        exact h (List.count_eq_zero.mpr hn)
      rw [if_neg h, ih, List.filter_cons,
        if_neg (by simp [hmem])]

theorem uniqify_list_eq_firstOccurrences [DecidableEq α] (l : List α) :
    uniqify_list l = firstOccurrences l := by
  unfold uniqify_list
  rw [uniqifyAux_eq]
  simp

/-- C4: `uniqify_list` returns the subsequence of first occurrences of the
input: it agrees with the specification-side recursion `firstOccurrences`, is
a subsequence of the input (so first-occurrence order is preserved), keeps
exactly the input's elements with no repetitions, and is idempotent. -/
theorem C4_uniqify_list_first_occurrences {α : Type} [DecidableEq α] (l : List α) :
    uniqify_list l = firstOccurrences l ∧
    List.Sublist (uniqify_list l) l ∧
    (uniqify_list l).Nodup ∧
    (∀ x, x ∈ uniqify_list l ↔ x ∈ l) ∧
    uniqify_list (uniqify_list l) = uniqify_list l := by
  have he := uniqify_list_eq_firstOccurrences l
  refine ⟨he, ?_, ?_, ?_, ?_⟩
  · rw [he]; exact firstOccurrences_sublist l
  · rw [he]; exact firstOccurrences_nodup l
  · intro x; rw [he]; exact mem_firstOccurrences
  · rw [he, uniqify_list_eq_firstOccurrences,
      firstOccurrences_eq_self (firstOccurrences_nodup l)]

/-! ### Helper lemmas about the icon operations -/

theorem update_site_icon_none {d : AudioDownloader} (h : d.site_icon = none) :
    { d with site_icon := none } = d := by
  rw [← h]

theorem MResult.reqs_prepend (r : Request) (m : MResult) :
    (m.prepend r).reqs = r :: m.reqs := by
  cases m <;> rfl

theorem maybe_get_icon_cached (env : Env) (d : AudioDownloader)
    (h : d.site_icon.isSome = true) : maybe_get_icon env d = .ok d [] := by
  unfold maybe_get_icon
  rw [if_pos h]

theorem get_favicon_cached (env : Env) (d : AudioDownloader)
    (h : d.site_icon.isSome = true) : get_favicon env d = .ok d [] := by
  unfold get_favicon
  rw [if_pos h]

/-! ### Claim theorems -/

/-- C10: calling `download_files` on the base class raises
`NotImplementedError` with the documented message for every input, and every
field of the downloader is unchanged at the raise. -/
theorem C10_download_files_not_implemented (d : AudioDownloader)
    (word base ruby : String) (split : Bool) :
    download_files d word base ruby split =
      (.notImplementedError "Use a class derived from this.", d) ∧
    (download_files d word base ruby split).2.downloads_list = d.downloads_list ∧
    (download_files d word base ruby split).2.language = d.language ∧
    (download_files d word base ruby split).2.display_text = d.display_text ∧
    (download_files d word base ruby split).2.base_name = d.base_name ∧
    (download_files d word base ruby split).2.site_icon = d.site_icon ∧
    (download_files d word base ruby split).2.file_extension = d.file_extension ∧
    (download_files d word base ruby split).2.url = d.url ∧
    (download_files d word base ruby split).2.icon_url = d.icon_url ∧
    (download_files d word base ruby split).2.max_icon_size = d.max_icon_size ∧
    (download_files d word base ruby split).2.user_agent = d.user_agent ∧
    (download_files d word base ruby split).2.use_temp_files = d.use_temp_files ∧
    (download_files d word base ruby split).2.download_directory = d.download_directory ∧
    (download_files d word base ruby split).2.show_skull_and_bones = d.show_skull_and_bones :=
  ⟨rfl, rfl, rfl, rfl, rfl, rfl, rfl, rfl, rfl, rfl, rfl, rfl, rfl, rfl⟩

/-- `pat` occurs as a contiguous substring of `s`. -/
def strContains (s pat : String) : Prop :=
  pat.toList <:+: s.toList

/-- C2: `get_data_from_url` issues exactly one request, carrying the
user-agent header; a non-200 response raises `ValueError` whose message is
the status code, a colon and the reason phrase (so a 404 response gives a
message containing "404"); a 200 response returns the raw body. -/
theorem C2_get_data_from_url (env : Env) (d : AudioDownloader) (url_in : String)
    (resp : Response) (hresp : env.urlopen (uaRequest d url_in) = .ok resp) :
    (get_data_from_url env d url_in).1 = [uaRequest d url_in] ∧
    (uaRequest d url_in).headers = [("User-agent", d.user_agent)] ∧
    (resp.code ≠ 200 →
      (get_data_from_url env d url_in).2 =
        .error (.valueError (toString resp.code ++ ": " ++ resp.msg))) ∧
    (resp.code = 404 →
      strContains (toString resp.code ++ ": " ++ resp.msg) "404") ∧
    (resp.code = 200 → (get_data_from_url env d url_in).2 = .ok resp.body) := by
  refine ⟨?_, rfl, ?_, ?_, ?_⟩
  · unfold get_data_from_url
    rw [hresp]
    by_cases hc : resp.code ≠ 200 <;> simp [hc]
  · intro hc
    unfold get_data_from_url
    rw [hresp]
    simp [hc]
  · intro hc
    rw [hc]
    have h1 : toString (404 : Nat) = "404" := rfl
    rw [h1]
    refine ⟨[], (": " ++ resp.msg).toList, ?_⟩
    simp [strContains, String.toList]
  · intro hc
    unfold get_data_from_url
    rw [hresp]
    simp [hc]

/-- C8: with PyQt unavailable, both icon operations issue no request, raise
nothing, leave the downloader unchanged and keep the icon unset. -/
theorem C8_no_pyqt_no_op (env : Env) (d : AudioDownloader)
    (hq : env.with_pyqt = false) (h0 : d.site_icon = none) :
    maybe_get_icon env d = .ok d [] ∧ get_favicon env d = .ok d [] := by
  have hnotSome : ¬d.site_icon.isSome = true := by simp [h0]
  constructor
  · unfold maybe_get_icon
    rw [if_neg hnotSome, if_pos hq, update_site_icon_none h0]
  · unfold get_favicon
    rw [if_neg hnotSome, if_pos hq, update_site_icon_none h0]

theorem mkRequest_url (u ua : String) : (mkRequest u ua).url = u := by
  unfold mkRequest
  split <;> rfl

theorem get_favicon_reqs (env : Env) (d : AudioDownloader)
    (h0 : d.site_icon = none) (hq : env.with_pyqt = true) :
    (get_favicon env d).reqs =
      [mkRequest (urljoin d.icon_url "/favicon.ico") d.user_agent] := by
  unfold get_favicon
  rw [if_neg (by simp [h0]), if_neg (by simp [hq])]
  cases env.urlopen (mkRequest (urljoin d.icon_url "/favicon.ico") d.user_agent) with
  | error e => rfl
  | ok resp =>
    dsimp only
    by_cases hc : resp.code ≠ 200
    · rw [if_pos hc]; rfl
    · rw [if_neg hc]; rfl

/-! ### Concrete test data for witnesses and counterexamples -/

/-- A downloader whose base and icon-page URL point at `example.com`. -/
def dIcon : AudioDownloader :=
  { AudioDownloader.init with
      url := "http://example.com/", icon_url := "http://example.com/" }

/-- Environment in which every request yields HTTP 500. -/
def env500 : Env where
  with_pyqt := true
  urlopen := fun _ => .ok { code := 500, msg := "Internal Server Error", body := [] }
  findIconHref := fun _ => .noTag
  fromData := fun b => { width := 10, height := 10, raw := b }
  scaled := fun i _ => i
  free_media_name := fun b e => (b ++ e, b ++ e)

/-- Environment in which every request yields HTTP 404. -/
def env404 : Env where
  with_pyqt := true
  urlopen := fun _ => .ok { code := 404, msg := "Not Found", body := [] }
  findIconHref := fun _ => .noTag
  fromData := fun b => { width := 10, height := 10, raw := b }
  scaled := fun i _ => i
  free_media_name := fun b e => (b ++ e, b ++ e)

/-- Environment in which every request raises `URLError`. -/
def envDown : Env where
  with_pyqt := true
  urlopen := fun _ => .error { reason := "connection refused" }
  findIconHref := fun _ => .noTag
  fromData := fun b => { width := 10, height := 10, raw := b }
  scaled := fun i _ => i
  free_media_name := fun b e => (b ++ e, b ++ e)

/-- Environment without PyQt. -/
def envNoPyqt : Env where
  with_pyqt := false
  urlopen := fun _ => .error { reason := "unused" }
  findIconHref := fun _ => .noTag
  fromData := fun b => { width := 10, height := 10, raw := b }
  scaled := fun i _ => i
  free_media_name := fun b e => (b ++ e, b ++ e)

/-- Environment in which the icon page carries an absolute icon link and both
fetches succeed. -/
def envIconOK : Env where
  with_pyqt := true
  urlopen := fun r =>
    if r.url = "http://example.com/" then .ok { code := 200, msg := "OK", body := [0] }
    else if r.url = "http://img.example.com/icon.png" then
      .ok { code := 200, msg := "OK", body := [7] }
    else .error { reason := "unreachable" }
  findIconHref := fun _ => .href "http://img.example.com/icon.png"
  fromData := fun b => { width := 10, height := 10, raw := b }
  scaled := fun i _ => i
  free_media_name := fun b e => (b ++ e, b ++ e)

/-- The downloader state after `envIconOK` stores the fetched icon. -/
def dStored : AudioDownloader :=
  { dIcon with site_icon := some { width := 10, height := 10, raw := [7] } }

/-- Environment in which the icon page loads but the icon request itself
raises `URLError`. -/
def envIconReqDown : Env where
  with_pyqt := true
  urlopen := fun r =>
    if r.url = "http://example.com/" then .ok { code := 200, msg := "OK", body := [0] }
    else .error { reason := "icon host down" }
  findIconHref := fun _ => .href "http://img.example.com/icon.png"
  fromData := fun b => { width := 10, height := 10, raw := b }
  scaled := fun i _ => i
  free_media_name := fun b e => (b ++ e, b ++ e)

/-- A downloader whose base URL is the page `https://example.com/page`. -/
def dRel : AudioDownloader :=
  { AudioDownloader.init with
      url := "https://example.com/page", icon_url := "https://example.com/page" }

/-- Environment whose icon page declares the relative icon link
`/icons/a.png`. -/
def envRel : Env where
  with_pyqt := true
  urlopen := fun r =>
    if r.url = "https://example.com/page" then
      .ok { code := 200, msg := "OK", body := [0] }
    else if r.url = "https://example.com/icons/a.png" then
      .ok { code := 200, msg := "OK", body := [7] }
    else .error { reason := "unreachable" }
  findIconHref := fun _ => .href "/icons/a.png"
  fromData := fun b => { width := 10, height := 10, raw := b }
  scaled := fun i _ => i
  free_media_name := fun b e => (b ++ e, b ++ e)

/-- A downloader configured for temp files. -/
def dTemp : AudioDownloader :=
  { AudioDownloader.init with use_temp_files := true }

/-- C1 counterexample: in `env500` the first icon fetch of `dIcon` ends
normally with the site icon set to the "none available" value by a terminal
failure (both requests answer 500), yet a later `maybe_get_icon` call on the
resulting state issues network requests again. -/
theorem C1_counterexample :
    (maybe_get_icon env500 dIcon).isRaised = false ∧
    (maybe_get_icon env500 dIcon).st.site_icon = none ∧
    (maybe_get_icon env500 ((maybe_get_icon env500 dIcon).st)).reqs ≠ [] := by
  refine ⟨rfl, rfl, ?_⟩
  decide

/-- C1 amended: once the site icon holds an actual image (a truthy value),
any later `maybe_get_icon` call performs no network request and leaves the
downloader unchanged; but a site icon equal to the "none available" value
does not stop re-fetching — with PyQt present, a call on such a state always
issues at least one request. -/
theorem C1_icon_cache_truthy_only (env : Env) (d : AudioDownloader) :
    (d.site_icon.isSome = true → maybe_get_icon env d = .ok d []) ∧
    (d.site_icon = none → env.with_pyqt = true → (maybe_get_icon env d).reqs ≠ []) := by
  constructor
  · exact maybe_get_icon_cached env d
  · intro h0 hq
    unfold maybe_get_icon
    rw [if_neg (by simp [h0]), if_neg (by simp [hq])]
    cases env.urlopen (mkRequest d.icon_url d.user_agent) with
    | error e => simp [MResult.reqs]
    | ok presp =>
      dsimp only
      by_cases hc : presp.code ≠ 200
      · rw [if_pos hc, MResult.reqs_prepend]
        simp
      · rw [if_neg hc]
        cases env.findIconHref presp.body with
        | noTag =>
          dsimp only
          rw [MResult.reqs_prepend]
          simp
        | tagWithoutHref =>
          dsimp only
          rw [MResult.reqs_prepend]
          simp
        | href h =>
          dsimp only
          cases env.urlopen (mkRequest (resolveIconUrl d h) d.user_agent) with
          | error e => simp [MResult.reqs]
          | ok iresp =>
            dsimp only
            by_cases hc2 : iresp.code ≠ 200
            · rw [if_pos hc2]
              simp [MResult.reqs]
            · rw [if_neg hc2]
              simp [MResult.reqs]

theorem C1_witness : (maybe_get_icon env500 dIcon).reqs ≠ [] :=
  (C1_icon_cache_truthy_only env500 dIcon).2 rfl rfl

/-- C3 counterexample: with the network down, the page request of
`maybe_get_icon` raises `URLError` and the error escapes to the caller
instead of being swallowed. -/
theorem C3_counterexample :
    maybe_get_icon envDown dIcon =
      .raised { reason := "connection refused" } dIcon
        [mkRequest "http://example.com/" "Mozilla/5.0"] ∧
    (maybe_get_icon envDown dIcon).isRaised = true :=
  ⟨rfl, rfl⟩

/-- C3 amended: parse failures fall back to the favicon path, and a network
error raised while fetching the icon image itself is swallowed, the call
returning normally with the stored icon still the "no icon available" value;
network errors from the page request of `maybe_get_icon` and from the
favicon request of `get_favicon` propagate to the caller. -/
theorem C3_icon_request_error_swallowed (env : Env) (d : AudioDownloader)
    (presp : Response) (h : String) (e : URLError)
    (h0 : d.site_icon = none) (hq : env.with_pyqt = true)
    (hp : env.urlopen (mkRequest d.icon_url d.user_agent) = .ok presp)
    (h200 : presp.code = 200)
    (hf : env.findIconHref presp.body = .href h)
    (he : env.urlopen (mkRequest (resolveIconUrl d h) d.user_agent) = .error e) :
    maybe_get_icon env d =
      .ok d [mkRequest d.icon_url d.user_agent,
        mkRequest (resolveIconUrl d h) d.user_agent] ∧
    (maybe_get_icon env d).st.site_icon = none := by
  have hmain : maybe_get_icon env d =
      .ok d [mkRequest d.icon_url d.user_agent,
        mkRequest (resolveIconUrl d h) d.user_agent] := by
    unfold maybe_get_icon
    rw [if_neg (by simp [h0]), if_neg (by simp [hq]), hp]
    dsimp only
    rw [if_neg (by simp [h200]), hf]
    dsimp only
    rw [he]
  refine ⟨hmain, ?_⟩
  rw [hmain]
  exact h0

theorem C3_witness : (maybe_get_icon envIconReqDown dIcon).st.site_icon = none :=
  (C3_icon_request_error_swallowed envIconReqDown dIcon
    { code := 200, msg := "OK", body := [0] } "http://img.example.com/icon.png"
    { reason := "icon host down" } rfl rfl rfl rfl rfl (by rfl)).2

/-- C5: when the icon link parsed out of the page has an empty network
location, `maybe_get_icon` fetches it resolved against the downloader's base
URL via `urljoin` after percent-quoting; concretely, `/icons/a.png` against
`https://example.com/page` resolves to `https://example.com/icons/a.png`. -/
theorem C5_relative_icon_resolution (env : Env) (d : AudioDownloader)
    (presp : Response) (h : String)
    (h0 : d.site_icon = none) (hq : env.with_pyqt = true)
    (hp : env.urlopen (mkRequest d.icon_url d.user_agent) = .ok presp)
    (h200 : presp.code = 200)
    (hf : env.findIconHref presp.body = .href h)
    (hrel : (urlsplit h).netloc = "") :
    (maybe_get_icon env d).reqs.map Request.url =
      [d.icon_url, urljoin d.url (quote h)] ∧
    urljoin "https://example.com/page" (quote "/icons/a.png") =
      "https://example.com/icons/a.png" := by
  refine ⟨?_, by rfl⟩
  unfold maybe_get_icon
  rw [if_neg (by simp [h0]), if_neg (by simp [hq]), hp]
  dsimp only
  rw [if_neg (by simp [h200]), hf]
  dsimp only
  cases env.urlopen (mkRequest (resolveIconUrl d h) d.user_agent) with
  | error e => simp [MResult.reqs, mkRequest_url, resolveIconUrl, hrel]
  | ok iresp =>
    dsimp only
    by_cases hc : iresp.code ≠ 200
    · rw [if_pos hc]
      simp [MResult.reqs, mkRequest_url, resolveIconUrl, hrel]
    · rw [if_neg hc]
      simp [MResult.reqs, mkRequest_url, resolveIconUrl, hrel]

theorem C5_witness :
    (maybe_get_icon envRel dRel).reqs.map Request.url =
      ["https://example.com/page", urljoin "https://example.com/page" (quote "/icons/a.png")] :=
  (C5_relative_icon_resolution envRel dRel { code := 200, msg := "OK", body := [0] }
    "/icons/a.png" rfl rfl rfl rfl rfl rfl).1

/-- C6: with the icon unfetched, a non-200 icon page or a page without an
icon-link `href` makes `maybe_get_icon` fall back to fetching
`/favicon.ico` resolved against the icon host. -/
theorem C6_favicon_fallback (env : Env) (d : AudioDownloader) (presp : Response)
    (h0 : d.site_icon = none) (hq : env.with_pyqt = true)
    (hp : env.urlopen (mkRequest d.icon_url d.user_agent) = .ok presp)
    (hfail : presp.code ≠ 200 ∨ env.findIconHref presp.body = .noTag ∨
      env.findIconHref presp.body = .tagWithoutHref) :
    (maybe_get_icon env d).reqs.map Request.url =
      [d.icon_url, urljoin d.icon_url "/favicon.ico"] := by
  unfold maybe_get_icon
  rw [if_neg (by simp [h0]), if_neg (by simp [hq]), hp]
  dsimp only
  by_cases hc : presp.code ≠ 200
  · rw [if_pos hc, MResult.reqs_prepend, get_favicon_reqs env d h0 hq]
    simp [mkRequest_url]
  · rw [if_neg hc]
    rcases hfail with hbad | hfind | hfind
    · exact absurd hbad hc
    · rw [hfind]
      dsimp only
      rw [MResult.reqs_prepend, get_favicon_reqs env d h0 hq]
      simp [mkRequest_url]
    · rw [hfind]
      dsimp only
      rw [MResult.reqs_prepend, get_favicon_reqs env d h0 hq]
      simp [mkRequest_url]

theorem C6_witness :
    (maybe_get_icon env404 dIcon).reqs.map Request.url =
      ["http://example.com/", urljoin "http://example.com/" "/favicon.ico"] :=
  C6_favicon_fallback env404 dIcon { code := 404, msg := "Not Found", body := [] }
    rfl rfl rfl (Or.inl (by decide))

/-- C7: after a `maybe_get_icon` call whose outcome stores an actual
(non-none) site icon, every later call — under any environment — issues zero
network requests and returns with the state unchanged. -/
theorem C7_cached_after_success (envA envB : Env) (d d2 : AudioDownloader)
    (rs : List Request)
    (_hfirst : maybe_get_icon envA d = .ok d2 rs)
    (hstored : d2.site_icon.isSome = true) :
    maybe_get_icon envB d2 = .ok d2 [] ∧ (maybe_get_icon envB d2).reqs = [] := by
  have h := maybe_get_icon_cached envB d2 hstored
  exact ⟨h, by rw [h]; rfl⟩

theorem C7_witness :
    maybe_get_icon envIconOK dStored = .ok dStored [] ∧
    (maybe_get_icon envIconOK dStored).reqs = [] :=
  C7_cached_after_success envIconOK envIconOK dIcon dStored
    [mkRequest "http://example.com/" "Mozilla/5.0",
      mkRequest "http://img.example.com/icon.png" "Mozilla/5.0"] (by rfl) rfl

/-- C9: with `use_temp_files` set, `get_file_name` returns one temp path as
both components, the path carries the downloader's audio file extension, and
a second invocation returns a different path. -/
theorem C9_temp_file_unique (env : Env) (ts : TempState) (d : AudioDownloader)
    (h : d.use_temp_files = true) :
    (get_file_name env ts d).1.1 = (get_file_name env ts d).1.2 ∧
    (∃ stem, (get_file_name env ts d).1.1 = stem ++ d.file_extension) ∧
    (get_file_name env (get_file_name env ts d).2 d).1.1 ≠
      (get_file_name env ts d).1.1 := by
  have hlen : ∀ n : Nat,
      ("/tmp/tmp" ++ String.mk (List.replicate n 'q') ++ d.file_extension).length =
        8 + n + d.file_extension.length := by
    intro n
    simp [String.length_append]
    rfl
  simp only [get_file_name, namedTemporaryFile, h, if_true]
  refine ⟨trivial, ⟨"/tmp/tmp" ++ String.mk (List.replicate ts.counter 'q'), rfl⟩, ?_⟩
  intro heq
  have hl := congrArg String.length heq
  rw [hlen, hlen] at hl
  omega

theorem C9_witness :
    (get_file_name env404 ((get_file_name env404 { counter := 0 } dTemp).2) dTemp).1.1 ≠
      (get_file_name env404 { counter := 0 } dTemp).1.1 :=
  (C9_temp_file_unique env404 { counter := 0 } dTemp rfl).2.2

theorem C2_witness :
    strContains (toString (404 : Nat) ++ ": " ++ "Not Found") "404" :=
  (C2_get_data_from_url env404 AudioDownloader.init "http://example.com/x"
    { code := 404, msg := "Not Found", body := [] } rfl).2.2.2.1 rfl

theorem C8_witness :
    maybe_get_icon envNoPyqt dIcon = .ok dIcon [] ∧
    get_favicon envNoPyqt dIcon = .ok dIcon [] :=
  C8_no_pyqt_no_op envNoPyqt dIcon rfl rfl
